import Mathlib

/-!
# select_command: arbitration between remote and autonomous vehicle commands

A shallow embedding of
`ros/src/socket/packages/mqtt_socket/nodes/select_command/select_command.cpp`
and theorems about it.

Modelling conventions.

* The member fields of `class SelectCommand` that carry arbitration state
  (`select_cmd_msg_`, `emergency_stop_msg_`, `remote_cmd_time_`,
  `timeout_period_`, `command_mode_`) form the state record.  Node handles,
  publishers, subscribers and the thread handle carry no arbitration state.
* Every callback is a function from the state (and its input message) to the new
  state paired with the list of messages it publishes, in publication order.
* `ros::Time::now()` is an explicit argument of the functions that read the clock.
* `ros::Time` and `ros::Duration` are integer sec/nsec pairs; they are
  represented by their total number of nanoseconds.
* `std_msgs/Header.seq` is a `uint32`; `seq++` is addition modulo `2 ^ 32`.
* `enum class CommandMode{AUTO=1, REMOTE}` has underlying type `int`, and
  `static_cast<CommandMode>(m)` keeps the integer value, so a mode is
  represented by that integer.
* The numeric command values (accel, brake, steer, gear, velocities, angles) are
  only ever copied or set to the literals `0` and `-1`; they are represented by
  rationals.  The `emergency` fields are integers, as the
  `static_cast<bool>` in `remote_cmd_callback` indicates.  The message
  definitions are not part of the source file; a field and the input field
  assigned to it are taken to have the same type, so that assignment copies the
  value exactly.
* The diagnostic line written to `std::cout` by the watchdog is not a published
  message and is not modelled.
-/

namespace SelectCmdNode

/-- Total nanoseconds of a `ros::Time`. -/
abbrev Time := Int

/-- Total nanoseconds of a `ros::Duration`. -/
abbrev Duration := Int

/-- Numeric payload of a command field. -/
abbrev Num := Rat

/-- Modulus of the `uint32` counter `std_msgs/Header.seq`. -/
def SEQ_MOD : Nat := 2 ^ 32

/-- The message header `std_msgs/Header`. -/
structure Header where
  seq : Nat
  stamp : Time
  frame_id : String
  deriving DecidableEq, Repr

/-- The message `std_msgs/Bool`. -/
structure StdBool where
  data : Bool
  deriving DecidableEq, Repr

/-- The message `mqtt_socket_msgs/RemoteCmd`, with the fields the node reads. -/
structure RemoteCmd where
  header : Header
  accel : Num
  brake : Num
  steer : Num
  gear : Num
  mode : Int
  emergency : Int
  deriving DecidableEq, Repr

/-- The message `mqtt_socket_msgs/SelectCmd`, with the fields the node writes. -/
structure SelectCmd where
  header : Header
  linear_x : Num
  angular_z : Num
  mode : Int
  gear : Num
  accel : Num
  brake : Num
  steer : Num
  linear_velocity : Num
  steering_angle : Num
  emergency : Int
  deriving DecidableEq, Repr

/-- The message `geometry_msgs/Vector3`. -/
structure Vector3 where
  x : Num
  y : Num
  z : Num
  deriving DecidableEq, Repr

/-- The message `geometry_msgs/Twist`. -/
structure Twist where
  linear : Vector3
  angular : Vector3
  deriving DecidableEq, Repr

/-- The message `geometry_msgs/TwistStamped`. -/
structure TwistStamped where
  header : Header
  twist : Twist
  deriving DecidableEq, Repr

/-- The message `tablet_socket_msgs/mode_cmd`. -/
structure mode_cmd where
  header : Header
  mode : Int
  deriving DecidableEq, Repr

/-- The message `tablet_socket_msgs/gear_cmd`. -/
structure gear_cmd where
  header : Header
  gear : Num
  deriving DecidableEq, Repr

/-- The message `runtime_manager/accel_cmd`. -/
structure accel_cmd where
  header : Header
  accel : Num
  deriving DecidableEq, Repr

/-- The message `runtime_manager/steer_cmd`. -/
structure steer_cmd where
  header : Header
  steer : Num
  deriving DecidableEq, Repr

/-- The message `runtime_manager/brake_cmd`. -/
structure brake_cmd where
  header : Header
  brake : Num
  deriving DecidableEq, Repr

/-- The message `waypoint_follower_msgs/ControlCommand`. -/
structure ControlCommand where
  linear_velocity : Num
  steering_angle : Num
  deriving DecidableEq, Repr

/-- The message `waypoint_follower_msgs/ControlCommandStamped`. -/
structure ControlCommandStamped where
  header : Header
  cmd : ControlCommand
  deriving DecidableEq, Repr

/-- The scoped enumeration `CommandMode{AUTO=1, REMOTE}`: a value of its
underlying integer type. -/
structure CommandMode where
  val : Int
  deriving DecidableEq, Repr

/-- The enumerator `CommandMode::AUTO`, declared with value 1. -/
def CommandMode.AUTO : CommandMode := ⟨1⟩

/-- The enumerator `CommandMode::REMOTE`, which follows `AUTO` and so has value 2. -/
def CommandMode.REMOTE : CommandMode := ⟨2⟩

/-- The conversion `static_cast<CommandMode>(m)` of an integer mode code. -/
def CommandMode.static_cast (m : Int) : CommandMode := ⟨m⟩

/-- The conversion `static_cast<bool>(e)` of an integer: true unless zero. -/
def bool_static_cast (e : Int) : Bool := decide (e ≠ 0)

/-- A message handed to one of the two publishers. -/
inductive Pub where
  | select_cmd (m : SelectCmd)
  | emergency_stop (m : StdBool)
  deriving DecidableEq, Repr

/-- The arbitration state held by an object of `class SelectCommand`. -/
structure SelectCommand where
  select_cmd_msg_ : SelectCmd
  emergency_stop_msg_ : StdBool
  remote_cmd_time_ : Time
  timeout_period_ : Duration
  command_mode_ : CommandMode
  deriving DecidableEq, Repr

/-- Value of a default-constructed header: the generated message constructor
sets the counter and the stamp to zero and the frame name to the empty string. -/
def Header.default : Header := { seq := 0, stamp := 0, frame_id := "" }

/-- Value of a default-constructed `SelectCmd`: a ROS 1 message definition
cannot declare field defaults, and the generated message constructor sets every
numeric field to zero. -/
def SelectCmd.default : SelectCmd :=
  { header := Header.default, linear_x := 0, angular_z := 0, mode := 0, gear := 0,
    accel := 0, brake := 0, steer := 0, linear_velocity := 0, steering_angle := 0,
    emergency := 0 }

/-- The duration `ros::Duration(1.0)`: one second. -/
def one_second : Duration := 1000000000

namespace SelectCommand

/-- The constructor `SelectCommand::SelectCommand`, run when the clock reads
`now`.  The member initialiser list sets `timeout_period_(1.0)` and
`command_mode_(CommandMode::REMOTE)`; `select_cmd_msg_` and
`emergency_stop_msg_` are default-constructed; the body then assigns
`header.seq = 0`, `emergency_stop_msg_.data = false` and
`remote_cmd_time_ = ros::Time::now()`.  It does not call
`reset_select_cmd_msg`. -/
def ctor (now : Time) : SelectCommand :=
  { select_cmd_msg_ := { SelectCmd.default with header := { Header.default with seq := 0 } },
    emergency_stop_msg_ := { data := false },
    remote_cmd_time_ := now,
    timeout_period_ := one_second,
    command_mode_ := CommandMode.REMOTE }

/-- The method `reset_select_cmd_msg`: assigns nine command fields; the header
and the `emergency` field of the message are not assigned. -/
def reset_select_cmd_msg (s : SelectCommand) : SelectCommand :=
  { s with select_cmd_msg_ :=
      { s.select_cmd_msg_ with
        linear_x := 0, angular_z := 0, mode := 0, gear := 0, accel := 0, brake := 0,
        steer := 0, linear_velocity := -1, steering_angle := 0 } }

/-- The statement `select_cmd_msg_.header.seq++` on the `uint32` counter. -/
def seq_incr (seq : Nat) : Nat := (seq + 1) % SEQ_MOD

/-- The three header statements shared by the callbacks: copy `frame_id` and
`stamp` from the input header and increment `seq`. -/
def stamp_header (h : Header) (input : Header) : Header :=
  { frame_id := input.frame_id, stamp := input.stamp, seq := seq_incr h.seq }

/-- One iteration of the `while(1)` loop of `watchdog_timer`, entered when the
clock reads `now_time`. -/
def watchdog_timer (s : SelectCommand) (now_time : Time) : SelectCommand × List Pub :=
  if now_time - s.remote_cmd_time_ > s.timeout_period_ ∨ s.emergency_stop_msg_.data = true then
    let s1 := { s with command_mode_ := CommandMode.AUTO }
    let s2 := { s1 with emergency_stop_msg_ := { data := true } }
    (s2, [Pub.emergency_stop s2.emergency_stop_msg_])
  else
    (s, [])

/-- The callback `remote_cmd_callback`, run when the clock reads `now`. -/
def remote_cmd_callback (s : SelectCommand) (input_msg : RemoteCmd) (now : Time) :
    SelectCommand × List Pub :=
  let s1 := { s with command_mode_ := CommandMode.static_cast input_msg.mode }
  let s2 := { s1 with select_cmd_msg_ := { s1.select_cmd_msg_ with mode := input_msg.mode } }
  let s3 := { s2 with emergency_stop_msg_ := { data := bool_static_cast input_msg.emergency } }
  let s4 := { s3 with remote_cmd_time_ := now }
  if s4.command_mode_ = CommandMode.REMOTE then
    let m := { s4.select_cmd_msg_ with
      header := stamp_header s4.select_cmd_msg_.header input_msg.header,
      accel := input_msg.accel,
      brake := input_msg.brake,
      steer := input_msg.steer,
      gear := input_msg.gear,
      mode := input_msg.mode,
      emergency := input_msg.emergency }
    ({ s4 with select_cmd_msg_ := m }, [Pub.select_cmd m])
  else
    (s4, [])

/-- The callback `auto_cmd_twist_cmd_callback`. -/
def auto_cmd_twist_cmd_callback (s : SelectCommand) (input_msg : TwistStamped) :
    SelectCommand × List Pub :=
  if s.command_mode_ = CommandMode.AUTO then
    let m := { s.select_cmd_msg_ with
      header := stamp_header s.select_cmd_msg_.header input_msg.header,
      linear_x := input_msg.twist.linear.x,
      angular_z := input_msg.twist.angular.z }
    ({ s with select_cmd_msg_ := m }, [Pub.select_cmd m])
  else
    (s, [])

/-- The callback `auto_cmd_mode_cmd_callback`. -/
def auto_cmd_mode_cmd_callback (s : SelectCommand) (input_msg : mode_cmd) :
    SelectCommand × List Pub :=
  if s.command_mode_ = CommandMode.AUTO then
    let s1 := if input_msg.mode = -1 ∨ input_msg.mode = 0 then reset_select_cmd_msg s else s
    let m := { s1.select_cmd_msg_ with
      header := stamp_header s1.select_cmd_msg_.header input_msg.header,
      mode := input_msg.mode }
    ({ s1 with select_cmd_msg_ := m }, [Pub.select_cmd m])
  else
    (s, [])

/-- The callback `auto_cmd_gear_cmd_callback`: the header is not touched. -/
def auto_cmd_gear_cmd_callback (s : SelectCommand) (input_msg : gear_cmd) :
    SelectCommand × List Pub :=
  if s.command_mode_ = CommandMode.AUTO then
    let m := { s.select_cmd_msg_ with gear := input_msg.gear }
    ({ s with select_cmd_msg_ := m }, [Pub.select_cmd m])
  else
    (s, [])

/-- The callback `auto_cmd_accel_cmd_callback`. -/
def auto_cmd_accel_cmd_callback (s : SelectCommand) (input_msg : accel_cmd) :
    SelectCommand × List Pub :=
  if s.command_mode_ = CommandMode.AUTO then
    let m := { s.select_cmd_msg_ with
      header := stamp_header s.select_cmd_msg_.header input_msg.header,
      accel := input_msg.accel }
    ({ s with select_cmd_msg_ := m }, [Pub.select_cmd m])
  else
    (s, [])

/-- The callback `auto_cmd_steer_cmd_callback`. -/
def auto_cmd_steer_cmd_callback (s : SelectCommand) (input_msg : steer_cmd) :
    SelectCommand × List Pub :=
  if s.command_mode_ = CommandMode.AUTO then
    let m := { s.select_cmd_msg_ with
      header := stamp_header s.select_cmd_msg_.header input_msg.header,
      steer := input_msg.steer }
    ({ s with select_cmd_msg_ := m }, [Pub.select_cmd m])
  else
    (s, [])

/-- The callback `auto_cmd_brake_cmd_callback`. -/
def auto_cmd_brake_cmd_callback (s : SelectCommand) (input_msg : brake_cmd) :
    SelectCommand × List Pub :=
  if s.command_mode_ = CommandMode.AUTO then
    let m := { s.select_cmd_msg_ with
      header := stamp_header s.select_cmd_msg_.header input_msg.header,
      brake := input_msg.brake }
    ({ s with select_cmd_msg_ := m }, [Pub.select_cmd m])
  else
    (s, [])

/-- The callback `auto_cmd_ctrl_cmd_callback`. -/
def auto_cmd_ctrl_cmd_callback (s : SelectCommand) (input_msg : ControlCommandStamped) :
    SelectCommand × List Pub :=
  if s.command_mode_ = CommandMode.AUTO then
    let m := { s.select_cmd_msg_ with
      header := stamp_header s.select_cmd_msg_.header input_msg.header,
      linear_velocity := input_msg.cmd.linear_velocity,
      steering_angle := input_msg.cmd.steering_angle }
    ({ s with select_cmd_msg_ := m }, [Pub.select_cmd m])
  else
    (s, [])

end SelectCommand

/-- A message arriving on one of the seven autonomous topics subscribed in the
constructor (`/twist_cmd`, `/mode_cmd`, `/gear_cmd`, `/accel_cmd`, `/steer_cmd`,
`/brake_cmd`, `/ctrl_cmd`). -/
inductive AutoCmd where
  | twist_cmd (m : TwistStamped)
  | mode_cmd (m : mode_cmd)
  | gear_cmd (m : gear_cmd)
  | accel_cmd (m : accel_cmd)
  | steer_cmd (m : steer_cmd)
  | brake_cmd (m : brake_cmd)
  | ctrl_cmd (m : ControlCommandStamped)
  deriving DecidableEq, Repr

/-- Dispatch of an autonomous message to the callback its topic is subscribed
with in the constructor. -/
def SelectCommand.auto_cmd_callback (s : SelectCommand) : AutoCmd → SelectCommand × List Pub
  | AutoCmd.twist_cmd m => s.auto_cmd_twist_cmd_callback m
  | AutoCmd.mode_cmd m => s.auto_cmd_mode_cmd_callback m
  | AutoCmd.gear_cmd m => s.auto_cmd_gear_cmd_callback m
  | AutoCmd.accel_cmd m => s.auto_cmd_accel_cmd_callback m
  | AutoCmd.steer_cmd m => s.auto_cmd_steer_cmd_callback m
  | AutoCmd.brake_cmd m => s.auto_cmd_brake_cmd_callback m
  | AutoCmd.ctrl_cmd m => s.auto_cmd_ctrl_cmd_callback m

/-- An operation of the node: a message on `/remote_cmd` handled at clock
reading `now`, a message on an autonomous topic, or one watchdog iteration
entered at clock reading `now`. -/
inductive Event where
  | remote_cmd (m : RemoteCmd) (now : Time)
  | auto_cmd (c : AutoCmd)
  | watchdog (now : Time)
  deriving DecidableEq, Repr

/-- The effect of one operation on the state, with the messages it publishes. -/
def SelectCommand.step (s : SelectCommand) : Event → SelectCommand × List Pub
  | Event.remote_cmd m now => s.remote_cmd_callback m now
  | Event.auto_cmd c => s.auto_cmd_callback c
  | Event.watchdog now => s.watchdog_timer now

/-- The state reached from `s` by a finite sequence of operations, applied one
after the other. -/
def SelectCommand.run (s : SelectCommand) : List Event → SelectCommand
  | [] => s
  | e :: es => SelectCommand.run (s.step e).1 es

/-- The messages published while a finite sequence of operations is applied
from `s`, one after the other, in publication order. -/
def SelectCommand.trace (s : SelectCommand) : List Event → List Pub
  | [] => []
  | e :: es => (s.step e).2 ++ SelectCommand.trace (s.step e).1 es

/-- The sequence numbers carried by the snapshots among published messages, in
publication order. -/
def emitted_seqs : List Pub → List Nat
  | [] => []
  | Pub.select_cmd m :: ps => m.header.seq :: emitted_seqs ps
  | Pub.emergency_stop _ :: ps => emitted_seqs ps

/-- Whether an operation is a message on `/gear_cmd`. -/
def Event.is_gear : Event → Bool
  | Event.auto_cmd (AutoCmd.gear_cmd _) => true
  | _ => false

/-- Whether an operation is a message on `/remote_cmd`. -/
def Event.is_remote_cmd : Event → Bool
  | Event.remote_cmd _ _ => true
  | _ => false

/-! ## Concrete states and messages used as instances -/

/-- The node two seconds after construction at time 0, no manual update having
arrived: one watchdog iteration has forced `AUTO` and set the latch. -/
def failsafe_state : SelectCommand :=
  ((SelectCommand.ctor 0).watchdog_timer 2000000000).1

/-- A remote command with the given mode code and emergency flag, all other
values zero. -/
def remote_cmd_of (mode emergency : Int) : RemoteCmd :=
  { header := { seq := 0, stamp := 2100000000, frame_id := "remote" },
    accel := 0, brake := 0, steer := 0, gear := 0, mode := mode, emergency := emergency }

/-- A state in the given mode whose sequence counter holds 4294967295, the
largest `uint32` value; everything else is as constructed at time 0. -/
def seq_max_state (mode : CommandMode) : SelectCommand :=
  { SelectCommand.ctor 0 with
    select_cmd_msg_ :=
      { SelectCmd.default with header := { Header.default with seq := 4294967295 } },
    command_mode_ := mode }

/-- A twist message with linear x 2 and angular z 1. -/
def twist_sample : TwistStamped :=
  { header := { seq := 7, stamp := 1200000000, frame_id := "base_link" },
    twist := { linear := { x := 2, y := 0, z := 0 }, angular := { x := 0, y := 0, z := 1 } } }

/-- An accel message with value 3, stamped 9 ns in frame `accel`. -/
def accel_sample : accel_cmd :=
  { header := { seq := 0, stamp := 9, frame_id := "accel" }, accel := 3 }

/-- A mode message carrying the given mode code. -/
def mode_cmd_of (mode : Int) : mode_cmd :=
  { header := { seq := 0, stamp := 11, frame_id := "mode" }, mode := mode }

/-- A gear message with value 4. -/
def gear_sample : gear_cmd :=
  { header := { seq := 0, stamp := 13, frame_id := "gear" }, gear := 4 }

/-- A trajectory-control message with linear velocity 5 and steering angle 1. -/
def ctrl_sample : ControlCommandStamped :=
  { header := { seq := 0, stamp := 15, frame_id := "ctrl" },
    cmd := { linear_velocity := 5, steering_angle := 1 } }

/-- Operations from construction: a watchdog iteration two seconds later, then a
twist message, then a gear message. -/
def twist_then_gear : List Event :=
  [Event.watchdog 2000000000, Event.auto_cmd (AutoCmd.twist_cmd twist_sample),
   Event.auto_cmd (AutoCmd.gear_cmd gear_sample)]

/-- Operations from construction without a gear message: a manual update, a
watchdog iteration 1.1 s later, a twist message and an accel message. -/
def no_gear_events : List Event :=
  [Event.remote_cmd (remote_cmd_of 2 0) 0, Event.watchdog 1100000000,
   Event.auto_cmd (AutoCmd.twist_cmd twist_sample),
   Event.auto_cmd (AutoCmd.accel_cmd accel_sample)]

/-- The manual update of the scenario: mode code 2 and accel 0.5, the remaining
fields being those of `m`. -/
def scenario_manual (m : RemoteCmd) : RemoteCmd :=
  { m with mode := 2, accel := 1 / 2 }

/-- The twist update of the scenario: linear x 2, the remaining fields being
those of `tw`. -/
def scenario_twist (tw : TwistStamped) : TwistStamped :=
  { tw with twist := { tw.twist with linear := { tw.twist.linear with x := 2 } } }

/-- First step of the scenario: the node is constructed at time 0 and handles
the manual update at time 0. -/
def scenario_step1 (m : RemoteCmd) : SelectCommand × List Pub :=
  (SelectCommand.ctor 0).remote_cmd_callback (scenario_manual m) 0

/-- Second step of the scenario: a watchdog iteration at 1.1 s. -/
def scenario_step2 (m : RemoteCmd) : SelectCommand × List Pub :=
  (scenario_step1 m).1.watchdog_timer 1100000000

/-- Third step of the scenario: the twist update. -/
def scenario_step3 (m : RemoteCmd) (tw : TwistStamped) : SelectCommand × List Pub :=
  (scenario_step2 m).1.auto_cmd_twist_cmd_callback (scenario_twist tw)

/-- Operations without a manual update: watchdog iterations at various times
interleaved with a twist, a gear and a mode message. -/
def ticks_and_auto_events : List Event :=
  [Event.watchdog 2010000000, Event.auto_cmd (AutoCmd.twist_cmd twist_sample),
   Event.watchdog 5, Event.auto_cmd (AutoCmd.gear_cmd gear_sample),
   Event.auto_cmd (AutoCmd.mode_cmd (mode_cmd_of 0)), Event.watchdog 9000000000]

/-- The state reached from construction by a watchdog iteration two seconds
later followed by a twist message: the mode is `AUTO` and one snapshot, numbered
1, has been published. -/
def after_twist_state : SelectCommand :=
  (SelectCommand.ctor 0).run
    [Event.watchdog 2000000000, Event.auto_cmd (AutoCmd.twist_cmd twist_sample)]

/-- Operations from construction: a watchdog iteration two seconds later, then
`2 ^ 32` twist messages. -/
def many_twists : List Event :=
  Event.watchdog 2000000000 ::
    List.replicate (2 ^ 32) (Event.auto_cmd (AutoCmd.twist_cmd twist_sample))

/-! ## Watchdog failover -/

/-- C1: whenever the heartbeat is older than the timeout period or the emergency
latch is already set, one watchdog iteration leaves the mode equal to `AUTO`,
the latch set, and publishes exactly one emergency-stop message, with value
true. -/
theorem watchdog_timer_failover (s : SelectCommand) (now : Time)
    (h : now - s.remote_cmd_time_ > s.timeout_period_ ∨ s.emergency_stop_msg_.data = true) :
    (s.watchdog_timer now).1.command_mode_ = CommandMode.AUTO ∧
    (s.watchdog_timer now).1.emergency_stop_msg_.data = true ∧
    (s.watchdog_timer now).2 = [Pub.emergency_stop { data := true }] := by
  unfold SelectCommand.watchdog_timer
  rw [if_pos h]
  exact ⟨rfl, rfl, rfl⟩

/-- Witness for C1: the freshly constructed node, whose timeout period is one
second, ticked 1.1 s after construction. -/
theorem watchdog_timer_failover_witness :
    (1100000000 - (SelectCommand.ctor 0).remote_cmd_time_ > (SelectCommand.ctor 0).timeout_period_
      ∨ (SelectCommand.ctor 0).emergency_stop_msg_.data = true) ∧
    ((SelectCommand.ctor 0).watchdog_timer 1100000000).1.command_mode_ = CommandMode.AUTO ∧
    ((SelectCommand.ctor 0).watchdog_timer 1100000000).1.emergency_stop_msg_.data = true ∧
    ((SelectCommand.ctor 0).watchdog_timer 1100000000).2
      = [Pub.emergency_stop { data := true }] :=
  ⟨Or.inl (by decide),
   watchdog_timer_failover (SelectCommand.ctor 0) 1100000000 (Or.inl (by decide))⟩

/-! ## The emergency latch -/

/-- C2 fails as stated: in the failsafe state the latch is set, and a manual
update whose emergency flag is 0 clears it. -/
theorem emergency_latch_cleared_by_remote_cmd :
    failsafe_state.emergency_stop_msg_.data = true ∧
    (failsafe_state.step
      (Event.remote_cmd (remote_cmd_of 2 0) 2100000000)).1.emergency_stop_msg_.data = false := by
  decide

/-- C2 amended: from a state whose latch is set, every autonomous update and
every watchdog iteration leaves the latch set, and a manual update leaves it set
exactly when the emergency flag of its input is nonzero (the callback copies the
flag into the latch). -/
theorem emergency_latch_after_operation (s : SelectCommand)
    (h : s.emergency_stop_msg_.data = true) :
    (∀ c : AutoCmd, (s.step (Event.auto_cmd c)).1.emergency_stop_msg_.data = true) ∧
    (∀ now : Time, (s.step (Event.watchdog now)).1.emergency_stop_msg_.data = true) ∧
    (∀ (m : RemoteCmd) (now : Time),
      (s.step (Event.remote_cmd m now)).1.emergency_stop_msg_.data = true ↔ m.emergency ≠ 0) := by
  refine ⟨?_, ?_, ?_⟩
  · intro c
    cases c <;>
      simp only [SelectCommand.step, SelectCommand.auto_cmd_callback,
        SelectCommand.auto_cmd_twist_cmd_callback, SelectCommand.auto_cmd_mode_cmd_callback,
        SelectCommand.auto_cmd_gear_cmd_callback, SelectCommand.auto_cmd_accel_cmd_callback,
        SelectCommand.auto_cmd_steer_cmd_callback, SelectCommand.auto_cmd_brake_cmd_callback,
        SelectCommand.auto_cmd_ctrl_cmd_callback, SelectCommand.reset_select_cmd_msg] <;>
      split <;> try split
    all_goals exact h
  · intro now
    simp only [SelectCommand.step, SelectCommand.watchdog_timer]
    split
    · rfl
    · exact h
  · intro m now
    simp only [SelectCommand.step, SelectCommand.remote_cmd_callback]
    split <;> simp [bool_static_cast]

/-- Witness for the amended C2, at the failsafe state. -/
theorem emergency_latch_after_operation_witness :
    failsafe_state.emergency_stop_msg_.data = true ∧
    (failsafe_state.step
      (Event.remote_cmd (remote_cmd_of 2 1) 2100000000)).1.emergency_stop_msg_.data = true ∧
    (failsafe_state.step (Event.watchdog 2010000000)).1.emergency_stop_msg_.data = true :=
  ⟨by decide,
   ((emergency_latch_after_operation failsafe_state (by decide)).2.2
      (remote_cmd_of 2 1) 2100000000).mpr (by decide),
   (emergency_latch_after_operation failsafe_state (by decide)).2.1 2010000000⟩

/-! ## Mode codes carried by manual updates -/

/-- C3 fails as stated: a manual update carrying mode code 3, which is not the
code of `REMOTE`, leaves a mode that is not `AUTO` (and not `REMOTE` either). -/
theorem remote_cmd_unrecognized_mode_code :
    ((SelectCommand.ctor 0).remote_cmd_callback (remote_cmd_of 3 0) 5).1.command_mode_
      ≠ CommandMode.AUTO ∧
    ((SelectCommand.ctor 0).remote_cmd_callback (remote_cmd_of 3 0) 5).1.command_mode_
      ≠ CommandMode.REMOTE := by
  decide

/-- One operation keeps the mode, sets it to `AUTO`, or is a manual update and
sets it to the cast of the mode code it carries. -/
theorem step_command_mode (s : SelectCommand) (e : Event) :
    (s.step e).1.command_mode_ = s.command_mode_ ∨
    (s.step e).1.command_mode_ = CommandMode.AUTO ∨
    ∃ m now, e = Event.remote_cmd m now ∧
      (s.step e).1.command_mode_ = CommandMode.static_cast m.mode := by
  cases e with
  | remote_cmd m now =>
    refine Or.inr (Or.inr ⟨m, now, rfl, ?_⟩)
    simp only [SelectCommand.step, SelectCommand.remote_cmd_callback]
    split <;> rfl
  | auto_cmd c =>
    left
    cases c <;>
      simp only [SelectCommand.step, SelectCommand.auto_cmd_callback,
        SelectCommand.auto_cmd_twist_cmd_callback, SelectCommand.auto_cmd_mode_cmd_callback,
        SelectCommand.auto_cmd_gear_cmd_callback, SelectCommand.auto_cmd_accel_cmd_callback,
        SelectCommand.auto_cmd_steer_cmd_callback, SelectCommand.auto_cmd_brake_cmd_callback,
        SelectCommand.auto_cmd_ctrl_cmd_callback, SelectCommand.reset_select_cmd_msg] <;>
      split <;> try split
    all_goals rfl
  | watchdog now =>
    simp only [SelectCommand.step, SelectCommand.watchdog_timer]
    split
    · exact Or.inr (Or.inl rfl)
    · exact Or.inl rfl

/-- After a finite sequence of operations the mode is the one of the starting
state, `AUTO`, or the cast of the mode code of a manual update in the sequence. -/
theorem run_command_mode (es : List Event) : ∀ s : SelectCommand,
    (s.run es).command_mode_ = s.command_mode_ ∨
    (s.run es).command_mode_ = CommandMode.AUTO ∨
    ∃ m now, Event.remote_cmd m now ∈ es ∧
      (s.run es).command_mode_ = CommandMode.static_cast m.mode := by
  induction es with
  | nil => intro s; exact Or.inl rfl
  | cons e es ih =>
    intro s
    simp only [SelectCommand.run]
    rcases ih (s.step e).1 with h | h | ⟨m, now, hm, h⟩
    · rcases step_command_mode s e with h1 | h1 | ⟨m, now, he, h1⟩
      · exact Or.inl (h.trans h1)
      · exact Or.inr (Or.inl (h.trans h1))
      · exact Or.inr (Or.inr ⟨m, now, by simp [he], h.trans h1⟩)
    · exact Or.inr (Or.inl h)
    · exact Or.inr (Or.inr ⟨m, now, List.mem_cons_of_mem _ hm, h⟩)

/-- C3 amended: a manual update carrying mode code `c` leaves the mode equal to
the cast of `c`, which is `REMOTE` exactly when `c = 2` and `AUTO` exactly when
`c = 1` (any other code leaves a mode that is neither); and in every state
reachable from the constructed state the mode is `REMOTE`, `AUTO`, or the cast of
the mode code of a manual update that was received. -/
theorem remote_cmd_mode_mapping :
    (∀ (s : SelectCommand) (m : RemoteCmd) (now : Time),
      (s.remote_cmd_callback m now).1.command_mode_ = CommandMode.static_cast m.mode ∧
      ((s.remote_cmd_callback m now).1.command_mode_ = CommandMode.REMOTE ↔ m.mode = 2) ∧
      ((s.remote_cmd_callback m now).1.command_mode_ = CommandMode.AUTO ↔ m.mode = 1)) ∧
    (∀ (t0 : Time) (es : List Event),
      ((SelectCommand.ctor t0).run es).command_mode_ = CommandMode.REMOTE ∨
      ((SelectCommand.ctor t0).run es).command_mode_ = CommandMode.AUTO ∨
      ∃ m now, Event.remote_cmd m now ∈ es ∧
        ((SelectCommand.ctor t0).run es).command_mode_ = CommandMode.static_cast m.mode) := by
  constructor
  · intro s m now
    have h : (s.remote_cmd_callback m now).1.command_mode_ = CommandMode.static_cast m.mode := by
      simp only [SelectCommand.remote_cmd_callback]
      split <;> rfl
    rw [h]
    refine ⟨rfl, ?_, ?_⟩
    · simp [CommandMode.static_cast, CommandMode.REMOTE]
    · simp [CommandMode.static_cast, CommandMode.AUTO]
  · intro t0 es
    exact run_command_mode es (SelectCommand.ctor t0)

/-! ## The constructed state -/

/-- C4, the code at construction: the mode is `REMOTE`, the latch is clear, the
sequence counter is 0 and every command field is zero, but `linear_velocity` is
0 as well, not the sentinel -1 that `reset_select_cmd_msg` assigns: the
constructor never calls `reset_select_cmd_msg`. -/
theorem ctor_state (now : Time) :
    (SelectCommand.ctor now).command_mode_ = CommandMode.REMOTE ∧
    (SelectCommand.ctor now).emergency_stop_msg_.data = false ∧
    (SelectCommand.ctor now).select_cmd_msg_.header.seq = 0 ∧
    (SelectCommand.ctor now).select_cmd_msg_.linear_x = 0 ∧
    (SelectCommand.ctor now).select_cmd_msg_.angular_z = 0 ∧
    (SelectCommand.ctor now).select_cmd_msg_.mode = 0 ∧
    (SelectCommand.ctor now).select_cmd_msg_.gear = 0 ∧
    (SelectCommand.ctor now).select_cmd_msg_.accel = 0 ∧
    (SelectCommand.ctor now).select_cmd_msg_.brake = 0 ∧
    (SelectCommand.ctor now).select_cmd_msg_.steer = 0 ∧
    (SelectCommand.ctor now).select_cmd_msg_.steering_angle = 0 ∧
    (SelectCommand.ctor now).select_cmd_msg_.linear_velocity = 0 ∧
    (SelectCommand.ctor now).select_cmd_msg_.linear_velocity ≠ -1 ∧
    ((SelectCommand.ctor now).reset_select_cmd_msg).select_cmd_msg_.linear_velocity = -1 := by
  refine ⟨rfl, rfl, rfl, rfl, rfl, rfl, rfl, rfl, rfl, rfl, rfl, rfl, ?_, rfl⟩
  show (0 : Rat) ≠ -1
  norm_num

/-! ## Manual updates -/

/-- C5 fails as stated: with the counter at 4294967295 a manual update carrying
the code of `REMOTE` leaves the counter at 0, which is not one more. -/
theorem remote_cmd_seq_wraps :
    (remote_cmd_of 2 0).mode = CommandMode.REMOTE.val ∧
    (seq_max_state CommandMode.AUTO).select_cmd_msg_.header.seq = 4294967295 ∧
    ((seq_max_state CommandMode.AUTO).remote_cmd_callback
      (remote_cmd_of 2 0) 5).1.select_cmd_msg_.header.seq = 0 := by
  decide

/-- C5 amended: a manual update whose mode code is the code of `REMOTE` leaves
the mode `REMOTE`, the heartbeat equal to the current time, the header's
`frame_id` and `stamp` and the fields accel, brake, steer, gear, mode and
emergency equal to the input's, the sequence counter incremented modulo
`2 ^ 32` (so by exactly 1 unless it was 4294967295), and publishes exactly one
snapshot, equal to the resulting record. -/
theorem remote_cmd_manual_authority (s : SelectCommand) (m : RemoteCmd) (now : Time)
    (h : m.mode = CommandMode.REMOTE.val) :
    (s.remote_cmd_callback m now).1.command_mode_ = CommandMode.REMOTE ∧
    (s.remote_cmd_callback m now).1.remote_cmd_time_ = now ∧
    (s.remote_cmd_callback m now).1.select_cmd_msg_.header.frame_id = m.header.frame_id ∧
    (s.remote_cmd_callback m now).1.select_cmd_msg_.header.stamp = m.header.stamp ∧
    (s.remote_cmd_callback m now).1.select_cmd_msg_.accel = m.accel ∧
    (s.remote_cmd_callback m now).1.select_cmd_msg_.brake = m.brake ∧
    (s.remote_cmd_callback m now).1.select_cmd_msg_.steer = m.steer ∧
    (s.remote_cmd_callback m now).1.select_cmd_msg_.gear = m.gear ∧
    (s.remote_cmd_callback m now).1.select_cmd_msg_.mode = m.mode ∧
    (s.remote_cmd_callback m now).1.select_cmd_msg_.emergency = m.emergency ∧
    (s.remote_cmd_callback m now).1.select_cmd_msg_.header.seq
      = (s.select_cmd_msg_.header.seq + 1) % 2 ^ 32 ∧
    (s.select_cmd_msg_.header.seq + 1 < 2 ^ 32 →
      (s.remote_cmd_callback m now).1.select_cmd_msg_.header.seq
        = s.select_cmd_msg_.header.seq + 1) ∧
    (s.remote_cmd_callback m now).2
      = [Pub.select_cmd (s.remote_cmd_callback m now).1.select_cmd_msg_] := by
  have hm : CommandMode.static_cast m.mode = CommandMode.REMOTE := by
    rw [h]; rfl
  have key : s.remote_cmd_callback m now =
      ({ s with
          command_mode_ := CommandMode.static_cast m.mode,
          emergency_stop_msg_ := { data := bool_static_cast m.emergency },
          remote_cmd_time_ := now,
          select_cmd_msg_ :=
            { s.select_cmd_msg_ with
              header := SelectCommand.stamp_header s.select_cmd_msg_.header m.header,
              accel := m.accel, brake := m.brake, steer := m.steer, gear := m.gear,
              mode := m.mode, emergency := m.emergency } },
       [Pub.select_cmd
          { s.select_cmd_msg_ with
              header := SelectCommand.stamp_header s.select_cmd_msg_.header m.header,
              accel := m.accel, brake := m.brake, steer := m.steer, gear := m.gear,
              mode := m.mode, emergency := m.emergency }]) := by
    simp only [SelectCommand.remote_cmd_callback, if_pos hm]
  rw [key]
  refine ⟨hm, rfl, rfl, rfl, rfl, rfl, rfl, rfl, rfl, rfl, rfl, ?_, rfl⟩
  intro hlt
  exact Nat.mod_eq_of_lt hlt

/-- Witness for the amended C5: the first manual update after construction. -/
theorem remote_cmd_manual_authority_witness :
    (remote_cmd_of 2 0).mode = CommandMode.REMOTE.val ∧
    ((SelectCommand.ctor 0).remote_cmd_callback (remote_cmd_of 2 0) 5).1.command_mode_
      = CommandMode.REMOTE ∧
    ((SelectCommand.ctor 0).remote_cmd_callback (remote_cmd_of 2 0) 5).1.select_cmd_msg_.header.seq
      = 1 :=
  ⟨by decide,
   (remote_cmd_manual_authority (SelectCommand.ctor 0) (remote_cmd_of 2 0) 5 (by decide)).1,
   (remote_cmd_manual_authority (SelectCommand.ctor 0) (remote_cmd_of 2 0) 5
      (by decide)).2.2.2.2.2.2.2.2.2.2.2.1 (by decide)⟩

/-- C6 fails as stated: a manual update carrying mode code 1 leaves the mode
`AUTO`, yet the `mode` field of the record changes from 0 to 1. -/
theorem remote_cmd_auto_changes_mode_field :
    ((SelectCommand.ctor 0).remote_cmd_callback (remote_cmd_of 1 0) 5).1.command_mode_
      = CommandMode.AUTO ∧
    (SelectCommand.ctor 0).select_cmd_msg_.mode = 0 ∧
    ((SelectCommand.ctor 0).remote_cmd_callback (remote_cmd_of 1 0) 5).1.select_cmd_msg_.mode
      = 1 := by
  decide

/-- C6 amended: a manual update whose resulting mode is `AUTO` sets the heartbeat
to the current time and the latch to the input's emergency flag, leaves the
record as it was except for its `mode` field, which becomes the input's mode
code, and publishes nothing. -/
theorem remote_cmd_discarded_when_auto (s : SelectCommand) (m : RemoteCmd) (now : Time)
    (h : (s.remote_cmd_callback m now).1.command_mode_ = CommandMode.AUTO) :
    (s.remote_cmd_callback m now).1.remote_cmd_time_ = now ∧
    (s.remote_cmd_callback m now).1.emergency_stop_msg_.data = bool_static_cast m.emergency ∧
    (s.remote_cmd_callback m now).1.select_cmd_msg_ = { s.select_cmd_msg_ with mode := m.mode } ∧
    (s.remote_cmd_callback m now).2 = [] := by
  have hm : (s.remote_cmd_callback m now).1.command_mode_ = CommandMode.static_cast m.mode := by
    simp only [SelectCommand.remote_cmd_callback]
    split <;> rfl
  have hne : ¬ CommandMode.static_cast m.mode = CommandMode.REMOTE := by
    rw [← hm, h]; decide
  have key : s.remote_cmd_callback m now =
      ({ s with
          command_mode_ := CommandMode.static_cast m.mode,
          emergency_stop_msg_ := { data := bool_static_cast m.emergency },
          remote_cmd_time_ := now,
          select_cmd_msg_ := { s.select_cmd_msg_ with mode := m.mode } }, []) := by
    simp only [SelectCommand.remote_cmd_callback, if_neg hne]
  rw [key]
  exact ⟨rfl, rfl, rfl, rfl⟩

/-- Witness for the amended C6: a manual update with mode code 1 after
construction. -/
theorem remote_cmd_discarded_when_auto_witness :
    ((SelectCommand.ctor 0).remote_cmd_callback (remote_cmd_of 1 0) 5).1.command_mode_
      = CommandMode.AUTO ∧
    ((SelectCommand.ctor 0).remote_cmd_callback (remote_cmd_of 1 0) 5).1.remote_cmd_time_ = 5 ∧
    ((SelectCommand.ctor 0).remote_cmd_callback (remote_cmd_of 1 0) 5).2 = [] :=
  ⟨by decide,
   (remote_cmd_discarded_when_auto (SelectCommand.ctor 0) (remote_cmd_of 1 0) 5 (by decide)).1,
   (remote_cmd_discarded_when_auto (SelectCommand.ctor 0) (remote_cmd_of 1 0) 5
      (by decide)).2.2.2⟩

/-! ## Autonomous updates -/

/-- C7: in a state whose mode is not `AUTO`, an autonomous update of any kind
with any payload returns the state unchanged and publishes nothing. -/
theorem auto_cmd_noop_unless_auto (s : SelectCommand) (c : AutoCmd)
    (h : s.command_mode_ ≠ CommandMode.AUTO) :
    s.auto_cmd_callback c = (s, []) := by
  cases c <;>
    simp only [SelectCommand.auto_cmd_callback,
      SelectCommand.auto_cmd_twist_cmd_callback, SelectCommand.auto_cmd_mode_cmd_callback,
      SelectCommand.auto_cmd_gear_cmd_callback, SelectCommand.auto_cmd_accel_cmd_callback,
      SelectCommand.auto_cmd_steer_cmd_callback, SelectCommand.auto_cmd_brake_cmd_callback,
      SelectCommand.auto_cmd_ctrl_cmd_callback, if_neg h]

/-- Witness for C7: a twist message delivered to the freshly constructed node,
whose mode is `REMOTE`. -/
theorem auto_cmd_noop_unless_auto_witness :
    (SelectCommand.ctor 0).command_mode_ ≠ CommandMode.AUTO ∧
    (SelectCommand.ctor 0).auto_cmd_callback (AutoCmd.twist_cmd twist_sample)
      = (SelectCommand.ctor 0, []) :=
  ⟨by decide,
   auto_cmd_noop_unless_auto (SelectCommand.ctor 0) (AutoCmd.twist_cmd twist_sample)
     (by decide)⟩

/-- C8: in a state whose mode is `AUTO`, each autonomous update sets its own
command fields to the payload and leaves every other command field as it was:
apart from the header, the resulting record is the previous record with only
`linear_x`/`angular_z` (twist), `gear`, `accel`, `steer`, `brake`,
`linear_velocity`/`steering_angle` (ctrl), or `mode` (mode message whose code is
neither -1 nor 0) replaced; a mode message with any code sets `mode` to its
code. -/
theorem auto_cmd_field_isolation (s : SelectCommand)
    (h : s.command_mode_ = CommandMode.AUTO) :
    (∀ m : TwistStamped,
      { (s.auto_cmd_twist_cmd_callback m).1.select_cmd_msg_ with
          header := s.select_cmd_msg_.header }
        = { s.select_cmd_msg_ with
            linear_x := m.twist.linear.x, angular_z := m.twist.angular.z }) ∧
    (∀ m : gear_cmd,
      { (s.auto_cmd_gear_cmd_callback m).1.select_cmd_msg_ with
          header := s.select_cmd_msg_.header }
        = { s.select_cmd_msg_ with gear := m.gear }) ∧
    (∀ m : accel_cmd,
      { (s.auto_cmd_accel_cmd_callback m).1.select_cmd_msg_ with
          header := s.select_cmd_msg_.header }
        = { s.select_cmd_msg_ with accel := m.accel }) ∧
    (∀ m : steer_cmd,
      { (s.auto_cmd_steer_cmd_callback m).1.select_cmd_msg_ with
          header := s.select_cmd_msg_.header }
        = { s.select_cmd_msg_ with steer := m.steer }) ∧
    (∀ m : brake_cmd,
      { (s.auto_cmd_brake_cmd_callback m).1.select_cmd_msg_ with
          header := s.select_cmd_msg_.header }
        = { s.select_cmd_msg_ with brake := m.brake }) ∧
    (∀ m : ControlCommandStamped,
      { (s.auto_cmd_ctrl_cmd_callback m).1.select_cmd_msg_ with
          header := s.select_cmd_msg_.header }
        = { s.select_cmd_msg_ with
            linear_velocity := m.cmd.linear_velocity,
            steering_angle := m.cmd.steering_angle }) ∧
    (∀ m : mode_cmd, m.mode ≠ -1 → m.mode ≠ 0 →
      { (s.auto_cmd_mode_cmd_callback m).1.select_cmd_msg_ with
          header := s.select_cmd_msg_.header }
        = { s.select_cmd_msg_ with mode := m.mode }) ∧
    (∀ m : mode_cmd, (s.auto_cmd_mode_cmd_callback m).1.select_cmd_msg_.mode = m.mode) := by
  refine ⟨?_, ?_, ?_, ?_, ?_, ?_, ?_, ?_⟩
  · intro m; simp only [SelectCommand.auto_cmd_twist_cmd_callback, if_pos h]
  · intro m; simp only [SelectCommand.auto_cmd_gear_cmd_callback, if_pos h]
  · intro m; simp only [SelectCommand.auto_cmd_accel_cmd_callback, if_pos h]
  · intro m; simp only [SelectCommand.auto_cmd_steer_cmd_callback, if_pos h]
  · intro m; simp only [SelectCommand.auto_cmd_brake_cmd_callback, if_pos h]
  · intro m; simp only [SelectCommand.auto_cmd_ctrl_cmd_callback, if_pos h]
  · intro m h1 h0
    have hn : ¬ (m.mode = -1 ∨ m.mode = 0) := by
      rintro (h2 | h2)
      · exact h1 h2
      · exact h0 h2
    simp only [SelectCommand.auto_cmd_mode_cmd_callback, if_pos h, if_neg hn]
  · intro m
    simp only [SelectCommand.auto_cmd_mode_cmd_callback, if_pos h]

/-- Witness for C8: the failsafe state, whose mode is `AUTO`, receiving a twist
message and a mode message with code 1. -/
theorem auto_cmd_field_isolation_witness :
    failsafe_state.command_mode_ = CommandMode.AUTO ∧
    { (failsafe_state.auto_cmd_twist_cmd_callback twist_sample).1.select_cmd_msg_ with
        header := failsafe_state.select_cmd_msg_.header }
      = { failsafe_state.select_cmd_msg_ with linear_x := 2, angular_z := 1 } ∧
    { (failsafe_state.auto_cmd_mode_cmd_callback (mode_cmd_of 1)).1.select_cmd_msg_ with
        header := failsafe_state.select_cmd_msg_.header }
      = { failsafe_state.select_cmd_msg_ with mode := 1 } :=
  ⟨by decide,
   (auto_cmd_field_isolation failsafe_state (by decide)).1 twist_sample,
   (auto_cmd_field_isolation failsafe_state (by decide)).2.2.2.2.2.2.1 (mode_cmd_of 1)
     (by decide) (by decide)⟩

/-- C9 fails as stated: an accel update in `AUTO` mode overwrites the header's
`frame_id` and `stamp` with the input's, and with the counter at 4294967295 it
leaves the counter at 0. -/
theorem accel_cmd_changes_header :
    failsafe_state.command_mode_ = CommandMode.AUTO ∧
    failsafe_state.select_cmd_msg_.header.frame_id = "" ∧
    (failsafe_state.auto_cmd_accel_cmd_callback accel_sample).1.select_cmd_msg_.header.frame_id
      = "accel" ∧
    failsafe_state.select_cmd_msg_.header.stamp = 0 ∧
    (failsafe_state.auto_cmd_accel_cmd_callback accel_sample).1.select_cmd_msg_.header.stamp
      = 9 ∧
    (seq_max_state CommandMode.AUTO).select_cmd_msg_.header.seq = 4294967295 ∧
    ((seq_max_state CommandMode.AUTO).auto_cmd_accel_cmd_callback
      accel_sample).1.select_cmd_msg_.header.seq = 0 := by
  decide

/-- C9 amended: an accel update in `AUTO` mode changes only `accel`, the sequence
counter and the header's `frame_id` and `stamp`: `accel` becomes the payload,
`frame_id` and `stamp` become the input header's, the counter is incremented
modulo `2 ^ 32` (so by exactly 1 unless it was 4294967295), and every other
field of the record is as before. -/
theorem accel_cmd_frame (s : SelectCommand) (m : accel_cmd)
    (h : s.command_mode_ = CommandMode.AUTO) :
    (s.auto_cmd_accel_cmd_callback m).1.select_cmd_msg_
      = { s.select_cmd_msg_ with
          header := { frame_id := m.header.frame_id, stamp := m.header.stamp,
                      seq := (s.select_cmd_msg_.header.seq + 1) % 2 ^ 32 },
          accel := m.accel } ∧
    (s.select_cmd_msg_.header.seq + 1 < 2 ^ 32 →
      (s.auto_cmd_accel_cmd_callback m).1.select_cmd_msg_.header.seq
        = s.select_cmd_msg_.header.seq + 1) := by
  have key : s.auto_cmd_accel_cmd_callback m =
      ({ s with select_cmd_msg_ :=
          { s.select_cmd_msg_ with
            header := SelectCommand.stamp_header s.select_cmd_msg_.header m.header,
            accel := m.accel } },
       [Pub.select_cmd
          { s.select_cmd_msg_ with
            header := SelectCommand.stamp_header s.select_cmd_msg_.header m.header,
            accel := m.accel }]) := by
    simp only [SelectCommand.auto_cmd_accel_cmd_callback, if_pos h]
  rw [key]
  refine ⟨rfl, ?_⟩
  intro hlt
  exact Nat.mod_eq_of_lt hlt

/-- Witness for the amended C9: the failsafe state receiving an accel message. -/
theorem accel_cmd_frame_witness :
    failsafe_state.command_mode_ = CommandMode.AUTO ∧
    (failsafe_state.auto_cmd_accel_cmd_callback accel_sample).1.select_cmd_msg_.header.seq
      = failsafe_state.select_cmd_msg_.header.seq + 1 :=
  ⟨by decide, (accel_cmd_frame failsafe_state accel_sample (by decide)).2 (by decide)⟩

/-- C10 fails as stated: with the counter at 4294967295 a mode update carrying
the sentinel 0 in `AUTO` mode leaves the counter at 0, which is not one more. -/
theorem mode_cmd_reset_seq_wraps :
    (seq_max_state CommandMode.AUTO).command_mode_ = CommandMode.AUTO ∧
    (seq_max_state CommandMode.AUTO).select_cmd_msg_.header.seq = 4294967295 ∧
    ((seq_max_state CommandMode.AUTO).auto_cmd_mode_cmd_callback
      (mode_cmd_of 0)).1.select_cmd_msg_.header.seq = 0 := by
  decide

/-- C10 amended: a mode update carrying -1 or 0 in `AUTO` mode leaves `linear_x`,
`angular_z`, `gear`, `accel`, `brake`, `steer` and `steering_angle` equal to 0,
`linear_velocity` equal to -1, `mode` equal to the payload's code, the sequence
counter incremented modulo `2 ^ 32` (so by exactly 1 unless it was 4294967295),
and publishes that record exactly once. -/
theorem mode_cmd_reset (s : SelectCommand) (m : mode_cmd)
    (h : s.command_mode_ = CommandMode.AUTO) (hs : m.mode = -1 ∨ m.mode = 0) :
    (s.auto_cmd_mode_cmd_callback m).1.select_cmd_msg_.linear_x = 0 ∧
    (s.auto_cmd_mode_cmd_callback m).1.select_cmd_msg_.angular_z = 0 ∧
    (s.auto_cmd_mode_cmd_callback m).1.select_cmd_msg_.gear = 0 ∧
    (s.auto_cmd_mode_cmd_callback m).1.select_cmd_msg_.accel = 0 ∧
    (s.auto_cmd_mode_cmd_callback m).1.select_cmd_msg_.brake = 0 ∧
    (s.auto_cmd_mode_cmd_callback m).1.select_cmd_msg_.steer = 0 ∧
    (s.auto_cmd_mode_cmd_callback m).1.select_cmd_msg_.steering_angle = 0 ∧
    (s.auto_cmd_mode_cmd_callback m).1.select_cmd_msg_.linear_velocity = -1 ∧
    (s.auto_cmd_mode_cmd_callback m).1.select_cmd_msg_.mode = m.mode ∧
    (s.auto_cmd_mode_cmd_callback m).1.select_cmd_msg_.header.seq
      = (s.select_cmd_msg_.header.seq + 1) % 2 ^ 32 ∧
    (s.select_cmd_msg_.header.seq + 1 < 2 ^ 32 →
      (s.auto_cmd_mode_cmd_callback m).1.select_cmd_msg_.header.seq
        = s.select_cmd_msg_.header.seq + 1) ∧
    (s.auto_cmd_mode_cmd_callback m).2
      = [Pub.select_cmd (s.auto_cmd_mode_cmd_callback m).1.select_cmd_msg_] := by
  have key : s.auto_cmd_mode_cmd_callback m =
      ({ s with select_cmd_msg_ :=
          { s.reset_select_cmd_msg.select_cmd_msg_ with
            header := SelectCommand.stamp_header s.select_cmd_msg_.header m.header,
            mode := m.mode } },
       [Pub.select_cmd
          { s.reset_select_cmd_msg.select_cmd_msg_ with
            header := SelectCommand.stamp_header s.select_cmd_msg_.header m.header,
            mode := m.mode }]) := by
    simp only [SelectCommand.auto_cmd_mode_cmd_callback, if_pos h, if_pos hs,
      SelectCommand.reset_select_cmd_msg]
  rw [key]
  refine ⟨rfl, rfl, rfl, rfl, rfl, rfl, rfl, rfl, rfl, rfl, ?_, rfl⟩
  intro hlt
  exact Nat.mod_eq_of_lt hlt

/-- Witness for the amended C10: the failsafe state receiving the sentinel -1. -/
theorem mode_cmd_reset_witness :
    failsafe_state.command_mode_ = CommandMode.AUTO ∧
    ((mode_cmd_of (-1)).mode = -1 ∨ (mode_cmd_of (-1)).mode = 0) ∧
    (failsafe_state.auto_cmd_mode_cmd_callback (mode_cmd_of (-1))).1.select_cmd_msg_.linear_velocity
      = -1 ∧
    (failsafe_state.auto_cmd_mode_cmd_callback (mode_cmd_of (-1))).1.select_cmd_msg_.header.seq
      = failsafe_state.select_cmd_msg_.header.seq + 1 :=
  ⟨by decide, Or.inl (by decide),
   (mode_cmd_reset failsafe_state (mode_cmd_of (-1)) (by decide)
      (Or.inl (by decide))).2.2.2.2.2.2.2.1,
   (mode_cmd_reset failsafe_state (mode_cmd_of (-1)) (by decide)
      (Or.inl (by decide))).2.2.2.2.2.2.2.2.2.2.1 (by decide)⟩

/-! ## Sequence numbers of the published snapshots -/

/-- The sequence numbers of a concatenation of published messages. -/
theorem emitted_seqs_append (ps qs : List Pub) :
    emitted_seqs (ps ++ qs) = emitted_seqs ps ++ emitted_seqs qs := by
  induction ps with
  | nil => rfl
  | cons p ps ih =>
    cases p with
    | select_cmd m =>
      show m.header.seq :: emitted_seqs (ps ++ qs) = m.header.seq :: emitted_seqs ps ++ _
      rw [ih]; rfl
    | emergency_stop m =>
      show emitted_seqs (ps ++ qs) = _
      exact ih

/-- One operation either publishes no snapshot and keeps the counter, or
publishes exactly one snapshot, which carries the counter of the new state. -/
theorem step_emitted_seqs (s : SelectCommand) (e : Event) :
    (emitted_seqs (s.step e).2 = [] ∧
      (s.step e).1.select_cmd_msg_.header.seq = s.select_cmd_msg_.header.seq) ∨
    emitted_seqs (s.step e).2 = [(s.step e).1.select_cmd_msg_.header.seq] := by
  cases e with
  | remote_cmd m now =>
    simp only [SelectCommand.step, SelectCommand.remote_cmd_callback]
    split
    · right; rfl
    · left; exact ⟨rfl, rfl⟩
  | auto_cmd c =>
    cases c <;>
      simp only [SelectCommand.step, SelectCommand.auto_cmd_callback,
        SelectCommand.auto_cmd_twist_cmd_callback, SelectCommand.auto_cmd_mode_cmd_callback,
        SelectCommand.auto_cmd_gear_cmd_callback, SelectCommand.auto_cmd_accel_cmd_callback,
        SelectCommand.auto_cmd_steer_cmd_callback, SelectCommand.auto_cmd_brake_cmd_callback,
        SelectCommand.auto_cmd_ctrl_cmd_callback] <;>
      split
    all_goals first
      | (right; rfl)
      | (left; exact ⟨rfl, rfl⟩)
  | watchdog now =>
    left
    simp only [SelectCommand.step, SelectCommand.watchdog_timer]
    split <;> exact ⟨rfl, rfl⟩

/-- An operation other than a gear message either publishes no snapshot and
keeps the counter, or publishes exactly one snapshot, which carries the
incremented counter, and leaves the incremented counter in the state. -/
theorem step_emitted_seqs_of_not_gear (s : SelectCommand) (e : Event)
    (h : e.is_gear = false) :
    (emitted_seqs (s.step e).2 = [] ∧
      (s.step e).1.select_cmd_msg_.header.seq = s.select_cmd_msg_.header.seq) ∨
    (emitted_seqs (s.step e).2 = [(s.select_cmd_msg_.header.seq + 1) % 2 ^ 32] ∧
      (s.step e).1.select_cmd_msg_.header.seq = (s.select_cmd_msg_.header.seq + 1) % 2 ^ 32) := by
  cases e with
  | remote_cmd m now =>
    simp only [SelectCommand.step, SelectCommand.remote_cmd_callback]
    split
    · right; exact ⟨rfl, rfl⟩
    · left; exact ⟨rfl, rfl⟩
  | auto_cmd c =>
    cases c with
    | gear_cmd m => simp [Event.is_gear] at h
    | twist_cmd m =>
      simp only [SelectCommand.step, SelectCommand.auto_cmd_callback,
        SelectCommand.auto_cmd_twist_cmd_callback]
      split
      · right; exact ⟨rfl, rfl⟩
      · left; exact ⟨rfl, rfl⟩
    | mode_cmd m =>
      simp only [SelectCommand.step, SelectCommand.auto_cmd_callback,
        SelectCommand.auto_cmd_mode_cmd_callback]
      split
      · right
        split <;> exact ⟨rfl, rfl⟩
      · left; exact ⟨rfl, rfl⟩
    | accel_cmd m =>
      simp only [SelectCommand.step, SelectCommand.auto_cmd_callback,
        SelectCommand.auto_cmd_accel_cmd_callback]
      split
      · right; exact ⟨rfl, rfl⟩
      · left; exact ⟨rfl, rfl⟩
    | steer_cmd m =>
      simp only [SelectCommand.step, SelectCommand.auto_cmd_callback,
        SelectCommand.auto_cmd_steer_cmd_callback]
      split
      · right; exact ⟨rfl, rfl⟩
      · left; exact ⟨rfl, rfl⟩
    | brake_cmd m =>
      simp only [SelectCommand.step, SelectCommand.auto_cmd_callback,
        SelectCommand.auto_cmd_brake_cmd_callback]
      split
      · right; exact ⟨rfl, rfl⟩
      · left; exact ⟨rfl, rfl⟩
    | ctrl_cmd m =>
      simp only [SelectCommand.step, SelectCommand.auto_cmd_callback,
        SelectCommand.auto_cmd_ctrl_cmd_callback]
      split
      · right; exact ⟨rfl, rfl⟩
      · left; exact ⟨rfl, rfl⟩
  | watchdog now =>
    left
    simp only [SelectCommand.step, SelectCommand.watchdog_timer]
    split <;> exact ⟨rfl, rfl⟩

/-- Without gear messages, the snapshots published from `s` carry the counter of
`s` plus 1, plus 2, and so on, modulo `2 ^ 32`. -/
theorem trace_emitted_seqs (es : List Event) (h : ∀ e ∈ es, e.is_gear = false) :
    ∀ s : SelectCommand,
      emitted_seqs (s.trace es) =
        (List.range (emitted_seqs (s.trace es)).length).map
          (fun k => (s.select_cmd_msg_.header.seq + (k + 1)) % 2 ^ 32) := by
  induction es with
  | nil => intro s; rfl
  | cons e es ih =>
    intro s
    have he : e.is_gear = false := h e (List.mem_cons_self _ _)
    have ih1 := ih (fun x hx => h x (List.mem_cons_of_mem _ hx)) (s.step e).1
    simp only [SelectCommand.trace, emitted_seqs_append]
    rcases step_emitted_seqs_of_not_gear s e he with ⟨h1, h2⟩ | ⟨h1, h2⟩
    · rw [h1, List.nil_append, ← h2]
      exact ih1
    · rw [h2] at ih1
      rw [h1]
      generalize emitted_seqs ((s.step e).1.trace es) = B at ih1 ⊢
      generalize s.select_cmd_msg_.header.seq = q at ih1 ⊢
      simp only [List.singleton_append, List.length_cons, List.range_succ_eq_map,
        List.map_cons, List.map_map]
      congr 1
      calc B = (List.range B.length).map (fun k => ((q + 1) % 2 ^ 32 + (k + 1)) % 2 ^ 32) := ih1
        _ = _ := by
          apply List.map_congr_left
          intro k _
          simp only [Function.comp, Nat.succ_eq_add_one]
          omega

/-- In `AUTO` mode, `n` twist messages publish `n` snapshots. -/
theorem twist_replicate_length (tw : TwistStamped) (n : Nat) : ∀ s : SelectCommand,
    s.command_mode_ = CommandMode.AUTO →
    (emitted_seqs (s.trace
      (List.replicate n (Event.auto_cmd (AutoCmd.twist_cmd tw))))).length = n := by
  induction n with
  | zero => intro s _; rfl
  | succ n ih =>
    intro s h
    have hstep : s.step (Event.auto_cmd (AutoCmd.twist_cmd tw)) =
        ({ s with select_cmd_msg_ :=
            { s.select_cmd_msg_ with
              header := SelectCommand.stamp_header s.select_cmd_msg_.header tw.header,
              linear_x := tw.twist.linear.x, angular_z := tw.twist.angular.z } },
         [Pub.select_cmd
            { s.select_cmd_msg_ with
              header := SelectCommand.stamp_header s.select_cmd_msg_.header tw.header,
              linear_x := tw.twist.linear.x, angular_z := tw.twist.angular.z }]) := by
      simp only [SelectCommand.step, SelectCommand.auto_cmd_callback,
        SelectCommand.auto_cmd_twist_cmd_callback, if_pos h]
    rw [List.replicate_succ]
    simp only [SelectCommand.trace, emitted_seqs_append, List.length_append]
    rw [hstep]
    have ih1 := ih { s with select_cmd_msg_ :=
            { s.select_cmd_msg_ with
              header := SelectCommand.stamp_header s.select_cmd_msg_.header tw.header,
              linear_x := tw.twist.linear.x, angular_z := tw.twist.angular.z } } h
    rw [ih1]
    show 1 + n = n + 1
    omega

/-- C11 fails as stated: after a watchdog iteration has forced `AUTO`, a twist
message and then a gear message publish two snapshots that both carry sequence
number 1; and, without any gear message, among the snapshots published by
`2 ^ 32` twist messages the one numbered 4294967295 is followed by one numbered
0. -/
theorem gear_repeats_sequence_number :
    emitted_seqs ((SelectCommand.ctor 0).trace twist_then_gear) = [1, 1] ∧
    ((emitted_seqs ((SelectCommand.ctor 0).trace many_twists))[4294967294]? = some 4294967295 ∧
      (emitted_seqs ((SelectCommand.ctor 0).trace many_twists))[4294967295]? = some 0) := by
  refine ⟨by decide, ?_⟩
  have hng : ∀ e ∈ many_twists, e.is_gear = false := by
    intro e he
    rcases List.mem_cons.mp he with h | h
    · rw [h]; rfl
    · rw [List.eq_of_mem_replicate h]; rfl
  have hlen : (emitted_seqs ((SelectCommand.ctor 0).trace many_twists)).length = 2 ^ 32 := by
    have h1 := twist_replicate_length twist_sample (2 ^ 32)
      ((SelectCommand.ctor 0).step (Event.watchdog 2000000000)).1 (by decide)
    have h2 : emitted_seqs ((SelectCommand.ctor 0).step (Event.watchdog 2000000000)).2 = [] := by
      decide
    have htr : (SelectCommand.ctor 0).trace many_twists =
        ((SelectCommand.ctor 0).step (Event.watchdog 2000000000)).2 ++
          ((SelectCommand.ctor 0).step (Event.watchdog 2000000000)).1.trace
            (List.replicate (2 ^ 32) (Event.auto_cmd (AutoCmd.twist_cmd twist_sample))) := rfl
    rw [htr, emitted_seqs_append, h2, List.nil_append]
    exact h1
  have key := trace_emitted_seqs many_twists hng (SelectCommand.ctor 0)
  rw [hlen] at key
  have h0 : (SelectCommand.ctor 0).select_cmd_msg_.header.seq = 0 := rfl
  rw [h0] at key
  rw [key]
  constructor
  · rw [List.getElem?_map, List.getElem?_range (by norm_num)]
    show some ((0 + (4294967294 + 1)) % 2 ^ 32) = some 4294967295
    norm_num
  · rw [List.getElem?_map, List.getElem?_range (by norm_num)]
    show some ((0 + (4294967295 + 1)) % 2 ^ 32) = some 0
    norm_num

/-- C11 amended: for every finite sequence of operations without gear messages,
applied from the constructed state, the snapshot published in position `k`
(counting from 0) carries sequence number `(k + 1) mod 2 ^ 32`; in particular, as
long as fewer than `2 ^ 32` snapshots are published their sequence numbers are
1, 2, 3, ... without gap or repeat. -/
theorem emitted_seqs_consecutive (t0 : Time) (es : List Event)
    (h : ∀ e ∈ es, e.is_gear = false) :
    emitted_seqs ((SelectCommand.ctor t0).trace es) =
      (List.range (emitted_seqs ((SelectCommand.ctor t0).trace es)).length).map
        (fun k => (k + 1) % 2 ^ 32) ∧
    ((emitted_seqs ((SelectCommand.ctor t0).trace es)).length < 2 ^ 32 →
      emitted_seqs ((SelectCommand.ctor t0).trace es) =
        List.range' 1 (emitted_seqs ((SelectCommand.ctor t0).trace es)).length) := by
  have key := trace_emitted_seqs es h (SelectCommand.ctor t0)
  have h0 : (SelectCommand.ctor t0).select_cmd_msg_.header.seq = 0 := rfl
  rw [h0] at key
  generalize emitted_seqs ((SelectCommand.ctor t0).trace es) = B at key ⊢
  have key1 : B = (List.range B.length).map (fun k => (k + 1) % 2 ^ 32) := by
    calc B = (List.range B.length).map (fun k => (0 + (k + 1)) % 2 ^ 32) := key
      _ = _ := by
        apply List.map_congr_left
        intro k _
        simp only [Nat.zero_add]
  refine ⟨key1, ?_⟩
  intro hlt
  calc B = (List.range B.length).map (fun k => (k + 1) % 2 ^ 32) := key1
    _ = (List.range B.length).map (fun k => 1 + k) := by
        apply List.map_congr_left
        intro k hk
        have hk1 : k < B.length := List.mem_range.mp hk
        show (k + 1) % 2 ^ 32 = 1 + k
        omega
    _ = List.range' 1 B.length := (List.range'_eq_map_range 1 B.length).symm

/-- Witness for the amended C11: a manual update, a watchdog iteration, a twist
message and an accel message publish snapshots numbered 1, 2, 3. -/
theorem emitted_seqs_consecutive_witness :
    (∀ e ∈ no_gear_events, e.is_gear = false) ∧
    emitted_seqs ((SelectCommand.ctor 0).trace no_gear_events) = [1, 2, 3] ∧
    emitted_seqs ((SelectCommand.ctor 0).trace no_gear_events) =
      (List.range (emitted_seqs ((SelectCommand.ctor 0).trace no_gear_events)).length).map
        (fun k => (k + 1) % 2 ^ 32) :=
  ⟨by decide, by decide, (emitted_seqs_consecutive 0 no_gear_events (by decide)).1⟩

/-! ## The end-to-end scenario -/

/-- C12: from construction at time 0, a manual update with mode code 2 and
accel 0.5 publishes a snapshot with accel 0.5, mode field 2 and sequence number 1
and leaves the mode `REMOTE`; a watchdog iteration at 1.1 s then sets the mode to
`AUTO` and the latch, and publishes emergency-stop true; a twist update with
linear x 2 then publishes a snapshot with `linear_x` 2, sequence number 2 and
accel still 0.5. -/
theorem scenario_end_to_end (m : RemoteCmd) (tw : TwistStamped) :
    ((scenario_step1 m).2 = [Pub.select_cmd (scenario_step1 m).1.select_cmd_msg_] ∧
      (scenario_step1 m).1.select_cmd_msg_.accel = 1 / 2 ∧
      (scenario_step1 m).1.select_cmd_msg_.mode = 2 ∧
      (scenario_step1 m).1.select_cmd_msg_.header.seq = 1 ∧
      (scenario_step1 m).1.command_mode_ = CommandMode.REMOTE) ∧
    ((scenario_step2 m).1.command_mode_ = CommandMode.AUTO ∧
      (scenario_step2 m).1.emergency_stop_msg_.data = true ∧
      (scenario_step2 m).2 = [Pub.emergency_stop { data := true }]) ∧
    ((scenario_step3 m tw).2 = [Pub.select_cmd (scenario_step3 m tw).1.select_cmd_msg_] ∧
      (scenario_step3 m tw).1.select_cmd_msg_.linear_x = 2 ∧
      (scenario_step3 m tw).1.select_cmd_msg_.header.seq = 2 ∧
      (scenario_step3 m tw).1.select_cmd_msg_.accel = 1 / 2) := by
  refine ⟨⟨rfl, rfl, rfl, rfl, rfl⟩, ⟨rfl, rfl, rfl⟩, ⟨rfl, rfl, rfl, rfl⟩⟩

/-! ## Persistence of the failsafe state -/

/-- Running a sequence of operations followed by one more operation. -/
theorem run_append_singleton (es : List Event) (e : Event) : ∀ s : SelectCommand,
    s.run (es ++ [e]) = ((s.run es).step e).1 := by
  induction es with
  | nil => intro s; rfl
  | cons x xs ih => intro s; exact ih (s.step x).1

/-- An operation other than a manual update keeps the mode `AUTO` and the latch
set. -/
theorem step_keeps_failsafe (s : SelectCommand) (e : Event)
    (hm : s.command_mode_ = CommandMode.AUTO) (hl : s.emergency_stop_msg_.data = true)
    (he : e.is_remote_cmd = false) :
    (s.step e).1.command_mode_ = CommandMode.AUTO ∧
    (s.step e).1.emergency_stop_msg_.data = true := by
  cases e with
  | remote_cmd m now => simp [Event.is_remote_cmd] at he
  | auto_cmd c =>
    cases c <;>
      simp only [SelectCommand.step, SelectCommand.auto_cmd_callback,
        SelectCommand.auto_cmd_twist_cmd_callback, SelectCommand.auto_cmd_mode_cmd_callback,
        SelectCommand.auto_cmd_gear_cmd_callback, SelectCommand.auto_cmd_accel_cmd_callback,
        SelectCommand.auto_cmd_steer_cmd_callback, SelectCommand.auto_cmd_brake_cmd_callback,
        SelectCommand.auto_cmd_ctrl_cmd_callback, SelectCommand.reset_select_cmd_msg] <;>
      split <;> try split
    all_goals exact ⟨hm, hl⟩
  | watchdog now =>
    simp only [SelectCommand.step, SelectCommand.watchdog_timer]
    split
    · exact ⟨rfl, rfl⟩
    · exact ⟨hm, hl⟩

/-- A sequence of operations without manual updates keeps the mode `AUTO` and
the latch set. -/
theorem run_keeps_failsafe (es : List Event) (he : ∀ e ∈ es, e.is_remote_cmd = false) :
    ∀ s : SelectCommand, s.command_mode_ = CommandMode.AUTO →
      s.emergency_stop_msg_.data = true →
      (s.run es).command_mode_ = CommandMode.AUTO ∧
      (s.run es).emergency_stop_msg_.data = true := by
  induction es with
  | nil => intro s hm hl; exact ⟨hm, hl⟩
  | cons x xs ih =>
    intro s hm hl
    have hx := step_keeps_failsafe s x hm hl (he x (List.mem_cons_self _ _))
    exact ih (fun y hy => he y (List.mem_cons_of_mem _ hy)) (s.step x).1 hx.1 hx.2

/-- C13: from a state in which the mode is `AUTO` and the latch is set (as a
watchdog iteration leaves it on failover), along every finite sequence of
watchdog iterations and autonomous updates, at arbitrary times and without
manual update, the mode is `AUTO` and the latch is set after every operation of
the sequence, and every watchdog iteration of the sequence publishes exactly
emergency-stop true. -/
theorem failsafe_persists (s : SelectCommand)
    (hm : s.command_mode_ = CommandMode.AUTO) (hl : s.emergency_stop_msg_.data = true)
    (es : List Event) (he : ∀ e ∈ es, e.is_remote_cmd = false)
    (pre : List Event) (e : Event) (post : List Event) (hes : es = pre ++ e :: post) :
    (s.run (pre ++ [e])).command_mode_ = CommandMode.AUTO ∧
    (s.run (pre ++ [e])).emergency_stop_msg_.data = true ∧
    (∀ now : Time, e = Event.watchdog now →
      ((s.run pre).step e).2 = [Pub.emergency_stop { data := true }]) := by
  have hpre : ∀ x ∈ pre, x.is_remote_cmd = false := by
    intro x hx
    exact he x (by rw [hes]; exact List.mem_append_left _ hx)
  have hcur : e.is_remote_cmd = false :=
    he e (by rw [hes]; exact List.mem_append_right _ (List.mem_cons_self _ _))
  have h1 := run_keeps_failsafe pre hpre s hm hl
  have h2 := step_keeps_failsafe (s.run pre) e h1.1 h1.2 hcur
  rw [run_append_singleton]
  refine ⟨h2.1, h2.2, ?_⟩
  intro now hnow
  subst hnow
  simp only [SelectCommand.step, SelectCommand.watchdog_timer]
  rw [if_pos (Or.inr h1.2)]

/-- Witness for C13: the failsafe state followed by watchdog iterations and
autonomous updates; the third operation is a watchdog iteration whose clock
reading is even earlier than the heartbeat. -/
theorem failsafe_persists_witness :
    failsafe_state.command_mode_ = CommandMode.AUTO ∧
    failsafe_state.emergency_stop_msg_.data = true ∧
    (∀ e ∈ ticks_and_auto_events, e.is_remote_cmd = false) ∧
    (failsafe_state.run (ticks_and_auto_events.take 2 ++ [Event.watchdog 5])).command_mode_
      = CommandMode.AUTO ∧
    (failsafe_state.run
      (ticks_and_auto_events.take 2 ++ [Event.watchdog 5])).emergency_stop_msg_.data = true ∧
    ((failsafe_state.run (ticks_and_auto_events.take 2)).step (Event.watchdog 5)).2
      = [Pub.emergency_stop { data := true }] :=
  ⟨by decide, by decide, by decide,
   (failsafe_persists failsafe_state (by decide) (by decide) ticks_and_auto_events (by decide)
      (ticks_and_auto_events.take 2) (Event.watchdog 5) (ticks_and_auto_events.drop 3)
      (by decide)).1,
   (failsafe_persists failsafe_state (by decide) (by decide) ticks_and_auto_events (by decide)
      (ticks_and_auto_events.take 2) (Event.watchdog 5) (ticks_and_auto_events.drop 3)
      (by decide)).2.1,
   (failsafe_persists failsafe_state (by decide) (by decide) ticks_and_auto_events (by decide)
      (ticks_and_auto_events.take 2) (Event.watchdog 5) (ticks_and_auto_events.drop 3)
      (by decide)).2.2 5 rfl⟩

/-! ## The watchdog iteration -/

/-- C15: in the state a watchdog iteration produces, a set latch implies that
the mode is `AUTO`. -/
theorem watchdog_emergency_implies_auto (s : SelectCommand) (now : Time)
    (h : (s.watchdog_timer now).1.emergency_stop_msg_.data = true) :
    (s.watchdog_timer now).1.command_mode_ = CommandMode.AUTO := by
  by_cases hc : now - s.remote_cmd_time_ > s.timeout_period_ ∨ s.emergency_stop_msg_.data = true
  · simp only [SelectCommand.watchdog_timer, if_pos hc]
  · simp only [SelectCommand.watchdog_timer, if_neg hc] at h
    exact absurd (Or.inr h) hc

/-- Witness for C15: a watchdog iteration on a state whose latch a manual update
has set while selecting `REMOTE`. -/
theorem watchdog_emergency_implies_auto_witness :
    ((((SelectCommand.ctor 0).remote_cmd_callback (remote_cmd_of 2 1) 3).1.watchdog_timer
      4).1.emergency_stop_msg_.data = true) ∧
    (((SelectCommand.ctor 0).remote_cmd_callback (remote_cmd_of 2 1) 3).1.command_mode_
      = CommandMode.REMOTE) ∧
    ((((SelectCommand.ctor 0).remote_cmd_callback (remote_cmd_of 2 1) 3).1.watchdog_timer
      4).1.command_mode_ = CommandMode.AUTO) :=
  ⟨by decide, by decide,
   watchdog_emergency_implies_auto
     ((SelectCommand.ctor 0).remote_cmd_callback (remote_cmd_of 2 1) 3).1 4 (by decide)⟩

/-- C16: with the latch clear and the heartbeat no older than the timeout period
(the boundary included), a watchdog iteration returns the state unchanged and
publishes nothing. -/
theorem watchdog_idle_while_live (s : SelectCommand) (now : Time)
    (hl : s.emergency_stop_msg_.data = false)
    (ht : now - s.remote_cmd_time_ ≤ s.timeout_period_) :
    s.watchdog_timer now = (s, []) := by
  have hc : ¬ (now - s.remote_cmd_time_ > s.timeout_period_ ∨
      s.emergency_stop_msg_.data = true) := by
    rintro (h | h)
    · exact absurd ht (not_le.mpr h)
    · rw [hl] at h; exact Bool.noConfusion h
  simp only [SelectCommand.watchdog_timer, if_neg hc]

/-- Witness for C16: the constructed node ticked exactly one second, the
timeout period, after construction. -/
theorem watchdog_idle_while_live_witness :
    (SelectCommand.ctor 0).emergency_stop_msg_.data = false ∧
    (1000000000 - (SelectCommand.ctor 0).remote_cmd_time_
      = (SelectCommand.ctor 0).timeout_period_) ∧
    (SelectCommand.ctor 0).watchdog_timer 1000000000 = (SelectCommand.ctor 0, []) :=
  ⟨by decide, by decide,
   watchdog_idle_while_live (SelectCommand.ctor 0) 1000000000 (by decide) (by decide)⟩

/-! ## The gear update -/

/-- A sequence of operations that publishes no snapshot keeps the counter. -/
theorem run_seq_of_no_snapshot (es : List Event) : ∀ s : SelectCommand,
    emitted_seqs (s.trace es) = [] →
    (s.run es).select_cmd_msg_.header.seq = s.select_cmd_msg_.header.seq := by
  induction es with
  | nil => intro s _; rfl
  | cons e es ih =>
    intro s h
    simp only [SelectCommand.trace, emitted_seqs_append, List.append_eq_nil] at h
    rcases step_emitted_seqs s e with ⟨_, h2⟩ | h1
    · exact (ih (s.step e).1 h.2).trans h2
    · rw [h.1] at h1
      exact absurd h1 (List.cons_ne_nil _ _).symm

/-- After a sequence of operations, the counter of the state is the sequence
number of the snapshot published last, if one was published. -/
theorem run_seq_eq_last_emitted (es : List Event) : ∀ (s : SelectCommand) (q : Nat),
    (emitted_seqs (s.trace es)).getLast? = some q →
    (s.run es).select_cmd_msg_.header.seq = q := by
  induction es with
  | nil => intro s q h; simp [SelectCommand.trace, emitted_seqs] at h
  | cons e es ih =>
    intro s q h
    simp only [SelectCommand.trace, emitted_seqs_append, List.getLast?_append] at h
    cases hB : (emitted_seqs ((s.step e).1.trace es)).getLast? with
    | some b =>
      rw [hB] at h
      have hbq : b = q := Option.some.inj h
      rw [hbq] at hB
      exact ih (s.step e).1 q hB
    | none =>
      rw [hB] at h
      simp only [Option.none_or] at h
      have hnil : emitted_seqs ((s.step e).1.trace es) = [] := List.getLast?_eq_none_iff.mp hB
      have hkeep := run_seq_of_no_snapshot es (s.step e).1 hnil
      rcases step_emitted_seqs s e with ⟨h1, _⟩ | h1
      · rw [h1] at h
        simp at h
      · rw [h1] at h
        simp only [List.getLast?_singleton, Option.some.injEq] at h
        exact hkeep.trans h

/-- C17: in `AUTO` mode a gear update leaves the record equal to the previous one
with only `gear` replaced by the payload (header, and so sequence number,
`frame_id` and `stamp`, unchanged) and publishes exactly one snapshot, equal to
that record; when the state has been reached from construction and a snapshot
was published before, the new snapshot carries the same sequence number as the
one published last. -/
theorem gear_cmd_asymmetry (s : SelectCommand) (m : gear_cmd)
    (h : s.command_mode_ = CommandMode.AUTO) :
    s.auto_cmd_gear_cmd_callback m =
      ({ s with select_cmd_msg_ := { s.select_cmd_msg_ with gear := m.gear } },
       [Pub.select_cmd { s.select_cmd_msg_ with gear := m.gear }]) ∧
    (∀ (t0 : Time) (es : List Event) (q : Nat), s = (SelectCommand.ctor t0).run es →
      (emitted_seqs ((SelectCommand.ctor t0).trace es)).getLast? = some q →
      emitted_seqs (s.auto_cmd_gear_cmd_callback m).2 = [q]) := by
  have key : s.auto_cmd_gear_cmd_callback m =
      ({ s with select_cmd_msg_ := { s.select_cmd_msg_ with gear := m.gear } },
       [Pub.select_cmd { s.select_cmd_msg_ with gear := m.gear }]) := by
    simp only [SelectCommand.auto_cmd_gear_cmd_callback, if_pos h]
  refine ⟨key, ?_⟩
  intro t0 es q hs hq
  rw [key]
  have hseq := run_seq_eq_last_emitted es (SelectCommand.ctor t0) q hq
  rw [← hs] at hseq
  show [s.select_cmd_msg_.header.seq] = [q]
  rw [hseq]

/-- Witness for C17: a gear message after a twist message has published the
snapshot numbered 1; the gear snapshot is numbered 1 again. -/
theorem gear_cmd_asymmetry_witness :
    after_twist_state.command_mode_ = CommandMode.AUTO ∧
    (emitted_seqs ((SelectCommand.ctor 0).trace
      [Event.watchdog 2000000000, Event.auto_cmd (AutoCmd.twist_cmd twist_sample)])).getLast?
      = some 1 ∧
    emitted_seqs (after_twist_state.auto_cmd_gear_cmd_callback gear_sample).2 = [1] :=
  ⟨by decide, by decide,
   (gear_cmd_asymmetry after_twist_state gear_sample (by decide)).2 0
     [Event.watchdog 2000000000, Event.auto_cmd (AutoCmd.twist_cmd twist_sample)] 1 rfl
     (by decide)⟩

/-! ## Frame properties -/

/-- An autonomous update keeps the mode, the heartbeat, the latch and the
timeout period. -/
theorem auto_cmd_callback_frame (s : SelectCommand) (c : AutoCmd) :
    (s.auto_cmd_callback c).1.command_mode_ = s.command_mode_ ∧
    (s.auto_cmd_callback c).1.remote_cmd_time_ = s.remote_cmd_time_ ∧
    (s.auto_cmd_callback c).1.emergency_stop_msg_ = s.emergency_stop_msg_ ∧
    (s.auto_cmd_callback c).1.timeout_period_ = s.timeout_period_ := by
  cases c <;>
    simp only [SelectCommand.auto_cmd_callback,
      SelectCommand.auto_cmd_twist_cmd_callback, SelectCommand.auto_cmd_mode_cmd_callback,
      SelectCommand.auto_cmd_gear_cmd_callback, SelectCommand.auto_cmd_accel_cmd_callback,
      SelectCommand.auto_cmd_steer_cmd_callback, SelectCommand.auto_cmd_brake_cmd_callback,
      SelectCommand.auto_cmd_ctrl_cmd_callback, SelectCommand.reset_select_cmd_msg] <;>
    split <;> try split
  all_goals exact ⟨rfl, rfl, rfl, rfl⟩

/-- An autonomous update in a mode other than `AUTO` returns the state. -/
theorem auto_cmd_callback_state_of_not_auto (s : SelectCommand) (c : AutoCmd)
    (h : ¬ s.command_mode_ = CommandMode.AUTO) :
    (s.auto_cmd_callback c).1 = s := by
  cases c <;>
    simp only [SelectCommand.auto_cmd_callback,
      SelectCommand.auto_cmd_twist_cmd_callback, SelectCommand.auto_cmd_mode_cmd_callback,
      SelectCommand.auto_cmd_gear_cmd_callback, SelectCommand.auto_cmd_accel_cmd_callback,
      SelectCommand.auto_cmd_steer_cmd_callback, SelectCommand.auto_cmd_brake_cmd_callback,
      SelectCommand.auto_cmd_ctrl_cmd_callback, if_neg h]

/-- A manual update keeps `linear_velocity` and `steering_angle`. -/
theorem remote_cmd_callback_trajectory (s : SelectCommand) (m : RemoteCmd) (now : Time) :
    (s.remote_cmd_callback m now).1.select_cmd_msg_.linear_velocity
      = s.select_cmd_msg_.linear_velocity ∧
    (s.remote_cmd_callback m now).1.select_cmd_msg_.steering_angle
      = s.select_cmd_msg_.steering_angle := by
  simp only [SelectCommand.remote_cmd_callback]
  split <;> exact ⟨rfl, rfl⟩

/-- A watchdog iteration keeps the record, the heartbeat and the timeout
period, and publishes no snapshot. -/
theorem watchdog_timer_keeps (s : SelectCommand) (now : Time) :
    (s.watchdog_timer now).1.select_cmd_msg_ = s.select_cmd_msg_ ∧
    (s.watchdog_timer now).1.remote_cmd_time_ = s.remote_cmd_time_ ∧
    (s.watchdog_timer now).1.timeout_period_ = s.timeout_period_ ∧
    emitted_seqs (s.watchdog_timer now).2 = [] ∧
    (∀ m : SelectCmd, Pub.select_cmd m ∉ (s.watchdog_timer now).2) := by
  simp only [SelectCommand.watchdog_timer]
  split
  · refine ⟨rfl, rfl, rfl, rfl, ?_⟩
    intro m hm
    simp at hm
  · refine ⟨rfl, rfl, rfl, rfl, ?_⟩
    intro m hm
    simp at hm

/-- C18: whenever an operation (manual update, autonomous update of any kind,
watchdog iteration) leaves `linear_velocity` or `steering_angle` different from
before, the mode is `AUTO` when the operation is applied and `AUTO`
afterwards. -/
theorem trajectory_fields_only_under_auto (s : SelectCommand) (e : Event)
    (h : (s.step e).1.select_cmd_msg_.linear_velocity ≠ s.select_cmd_msg_.linear_velocity ∨
      (s.step e).1.select_cmd_msg_.steering_angle ≠ s.select_cmd_msg_.steering_angle) :
    s.command_mode_ = CommandMode.AUTO ∧ (s.step e).1.command_mode_ = CommandMode.AUTO := by
  cases e with
  | remote_cmd m now =>
    have hk := remote_cmd_callback_trajectory s m now
    rcases h with h | h
    · exact absurd hk.1 h
    · exact absurd hk.2 h
  | watchdog now =>
    have hk := (watchdog_timer_keeps s now).1
    have h1 : (s.step (Event.watchdog now)).1.select_cmd_msg_ = s.select_cmd_msg_ := hk
    rw [h1] at h
    rcases h with h | h <;> exact absurd rfl h
  | auto_cmd c =>
    by_cases hm : s.command_mode_ = CommandMode.AUTO
    · refine ⟨hm, ?_⟩
      exact (auto_cmd_callback_frame s c).1.trans hm
    · have h1 : (s.step (Event.auto_cmd c)).1 = s := auto_cmd_callback_state_of_not_auto s c hm
      rw [h1] at h
      rcases h with h | h <;> exact absurd rfl h

/-- Witness for C18: a trajectory-control message in the failsafe state changes
`linear_velocity` from 0 to 5. -/
theorem trajectory_fields_only_under_auto_witness :
    (failsafe_state.step
      (Event.auto_cmd (AutoCmd.ctrl_cmd ctrl_sample))).1.select_cmd_msg_.linear_velocity
      ≠ failsafe_state.select_cmd_msg_.linear_velocity ∧
    failsafe_state.command_mode_ = CommandMode.AUTO ∧
    (failsafe_state.step (Event.auto_cmd (AutoCmd.ctrl_cmd ctrl_sample))).1.command_mode_
      = CommandMode.AUTO :=
  ⟨by decide,
   trajectory_fields_only_under_auto failsafe_state
     (Event.auto_cmd (AutoCmd.ctrl_cmd ctrl_sample)) (Or.inl (by decide))⟩

/-- C19: in any state and mode, an autonomous update of any kind with any
payload leaves the mode, the heartbeat and the latch as they were. -/
theorem auto_cmd_keeps_authority_and_liveness (s : SelectCommand) (c : AutoCmd) :
    (s.auto_cmd_callback c).1.command_mode_ = s.command_mode_ ∧
    (s.auto_cmd_callback c).1.remote_cmd_time_ = s.remote_cmd_time_ ∧
    (s.auto_cmd_callback c).1.emergency_stop_msg_.data = s.emergency_stop_msg_.data := by
  have hf := auto_cmd_callback_frame s c
  exact ⟨hf.1, hf.2.1, congrArg StdBool.data hf.2.2.1⟩

/-- C20: a watchdog iteration changes at most the mode and the latch: the
heartbeat and the whole record (sequence number, header, every command field and
the record's own emergency field) are as before, and no snapshot is
published. -/
theorem watchdog_timer_frame (s : SelectCommand) (now : Time) :
    (s.watchdog_timer now).1 =
      { s with
        command_mode_ := (s.watchdog_timer now).1.command_mode_,
        emergency_stop_msg_ := (s.watchdog_timer now).1.emergency_stop_msg_ } ∧
    (s.watchdog_timer now).1.remote_cmd_time_ = s.remote_cmd_time_ ∧
    (s.watchdog_timer now).1.select_cmd_msg_ = s.select_cmd_msg_ ∧
    (∀ m : SelectCmd, Pub.select_cmd m ∉ (s.watchdog_timer now).2) := by
  have hk := watchdog_timer_keeps s now
  refine ⟨?_, hk.2.1, hk.1, hk.2.2.2.2⟩
  simp only [SelectCommand.watchdog_timer]
  split <;> rfl

end SelectCmdNode
